import Mathlib

/-!
Verification of the streaming TTS proxy (`streaming_tts_proxy`).

This development gives a shallow embedding, in Lean, of the core of the
proxy: the sentence segmenter (`_form_sentence` and the sentence-based
driver loop from `stream_processor.py`), the WAV header builder
(`create_wav_header`), the probe/failover dispatcher
(`async_process_stream`), the native-mode reader task (`_read_audio`),
the sentence-mode synthesis loop (`_synthesize_sentence`), and the
entity-level wrapper (`async_stream_tts_audio` in `tts.py`).

Text is modelled as `List Char`, byte strings as `List Nat` (each entry a
byte value).  Python functions that can raise are modelled with `Option`
or `Except`.  The event stream read from a connection is modelled as a
list of read results (an event, end-of-stream, a timeout of the guarded
read, or an I/O exception); each Python `await async_read_event(...)`
consumes one element of that list.

ASCII approximations (noted where they matter): the Python `str.strip`
also strips some non-ASCII Unicode whitespace, `\d` and `\w` in `re`
also match non-ASCII digits/word characters.  All concrete inputs used
in the theorems below are ASCII, where the embedding agrees exactly with
Python.
-/

namespace TtsProxy

set_option maxRecDepth 100000

/-- Whitespace as recognised by the Python methods `str.strip()` and `str.isspace()`,
restricted to ASCII: space and the control characters TAB..CR. -/
def isPySpace (c : Char) : Bool :=
  c = ' ' || (9 ≤ c.toNat && c.toNat ≤ 13)

/-- ASCII rendering of the Python regex class `\d`. -/
def isPyDigit (c : Char) : Bool :=
  c.isDigit

/-- ASCII rendering of the Python regex class `\w` (alphanumerics and
underscore). -/
def isPyWord (c : Char) : Bool :=
  c.isAlphanum || c = '_'

/-- The Python `str.strip()`: drop leading and trailing whitespace. -/
def pyStrip (s : List Char) : List Char :=
  ((s.dropWhile isPySpace).reverse.dropWhile isPySpace).reverse

/-- The literal placeholder `##DEC##` that `_form_sentence` substitutes
for a decimal point (`stream_processor.py`, `DECIMAL_PLACEHOLDER`). -/
def decPlaceholder : List Char :=
  ['#', '#', 'D', 'E', 'C', '#', '#']

/-- The substitution `re.sub` of the pattern digit-period-digit by
`\1##DEC##\2`: a single
left-to-right scan replacing non-overlapping `digit '.' digit`
occurrences; the scan resumes after the second digit of a match. -/
def maskDecimals : List Char → List Char
  | [] => []
  | [a] => [a]
  | [a, b] => [a, b]
  | a :: b :: c :: rest =>
    if isPyDigit a && b = '.' && isPyDigit c then
      a :: (decPlaceholder ++ c :: maskDecimals rest)
    else
      a :: maskDecimals (b :: c :: rest)

/-- `str.replace("##DEC##", ".")`: replace every (left-to-right,
non-overlapping) occurrence of the placeholder by a period; scanning
resumes after a replacement. -/
def unmaskDecimals : List Char → List Char
  | '#' :: '#' :: 'D' :: 'E' :: 'C' :: '#' :: '#' :: rest => '.' :: unmaskDecimals rest
  | [] => []
  | c :: rest => c :: unmaskDecimals rest

/-- The sentence terminators of `re.search(r"[.!?।。]", ...)`. -/
def isTerminator (c : Char) : Bool :=
  c = '.' || c = '!' || c = '?' || c = '।' || c = '。'

/-- The Python `str.rfind` on a space: index of the last space, `-1` if none. -/
def rfindSpace (l : List Char) : Int :=
  match l.reverse.findIdx? (fun c => c = ' ') with
  | none => -1
  | some i => ((l.length - 1 - i : Nat) : Int)

/-- The `max_chars = 250` ceiling of `_form_sentence`. -/
def maxChars : Nat := 250

/-- `StreamProcessor._form_sentence` (custom_components iteration):
split a buffer into a synthesis unit and the remainder.

Paths, in source order: empty buffer; first terminator found in the
masked text (both halves unmasked then stripped); buffer longer than the
ceiling with a space at positive index in the first `250 + 20`
characters (both halves unmasked then stripped); the hard cut at the
ceiling (both halves unmasked, not stripped); otherwise no unit yet. -/
def formSentence (buf : List Char) : List Char × List Char :=
  if buf = [] then ([], [])
  else
    let safe := maskDecimals buf
    match safe.findIdx? isTerminator with
    | some i =>
      (pyStrip (unmaskDecimals (safe.take (i + 1))),
       pyStrip (unmaskDecimals (safe.drop (i + 1))))
    | none =>
      if maxChars < safe.length then
        let j := rfindSpace (safe.take (maxChars + 20))
        if 0 < j then
          (pyStrip (unmaskDecimals (safe.take j.toNat)),
           pyStrip (unmaskDecimals (safe.drop j.toNat)))
        else
          (unmaskDecimals (safe.take maxChars), unmaskDecimals (safe.drop maxChars))
      else
        ([], buf)

/-! ## Sentence-based driver loop

`_stream_by_sentence_to_target` keeps a buffer of received text
fragments; after each fragment it repeatedly applies `_form_sentence`,
emitting every non-empty unit, and at end of stream flushes the stripped
remainder as a final unit.  The inner `while` loop is modelled with
explicit fuel (the Python loop terminates because each emitted unit
consumes at least one character); `none` means the fuel ran out, and
every theorem below evaluates to `some`. -/

/-- The inner `while current_text:` loop of
`_stream_by_sentence_to_target`: emit units while `_form_sentence`
produces a non-empty first component.  Returns the emitted units and the
remaining buffer. -/
def drainUnits : Nat → List Char → Option (List (List Char) × List Char)
  | 0, _ => none
  | fuel + 1, current =>
    if current = [] then some ([], current)
    else
      let p := formSentence current
      if p.1 = [] then some ([], current)
      else do
        let (us, rest) ← drainUnits fuel p.2
        some (p.1 :: us, rest)

/-- Process one incoming text fragment: append it to the buffer and
drain complete units. -/
def feedFragment (buf frag : List Char) : Option (List (List Char) × List Char) :=
  let cur := buf ++ frag
  drainUnits (cur.length + 1) cur

/-- All synthesis units emitted for a finite fragment stream: the units
drained after each fragment, plus the stripped end-of-stream remainder
when non-empty (`final_text = "".join(text_buffer).strip()`). -/
def streamUnits : List (List Char) → List Char → Option (List (List Char))
  | [], buf =>
    let fin := pyStrip buf
    some (if fin = [] then [] else [fin])
  | frag :: frags, buf => do
    let (us, rest) ← feedFragment buf frag
    let tail ← streamUnits frags rest
    some (us ++ tail)

/-- Units emitted by the sentence-based session for a fragment list,
starting from an empty buffer. -/
def streamBySentenceUnits (frags : List (List Char)) : Option (List (List Char)) :=
  streamUnits frags []

/-! ## WAV header builder

`create_wav_header` (identical in `stream_processor.py`, where
`data_size` defaults to `0`, and in `tts.py`).  `struct.pack` with
format `<4sL4s4sLHHLLHH4sL` packs little-endian and raises
`struct.error` on a field out of range, modelled by `Option`. -/

/-- Little-endian bytes of a 16-bit field. -/
def u16le (n : Nat) : List Nat :=
  [n % 256, n / 256 % 256]

/-- Little-endian bytes of a 32-bit field. -/
def u32le (n : Nat) : List Nat :=
  [n % 256, n / 256 % 256, n / 65536 % 256, n / 16777216 % 256]

/-- ASCII bytes of the four 4-byte tags. -/
def riffTag : List Nat := [82, 73, 70, 70]

def waveTag : List Nat := [87, 65, 86, 69]

def fmtTag : List Nat := [102, 109, 116, 32]

def dataTag : List Nat := [100, 97, 116, 97]

/-- `create_wav_header(sample_rate, bits_per_sample, channels, data_size)`.
For `data_size == 0` (the streaming case) both size fields are the
sentinel `0xFFFFFFFF`.  `none` models `struct.error` for a field out of
its `L`/`H` range. -/
def createWavHeader (sampleRate bitsPerSample channels dataSize : Nat) : Option (List Nat) :=
  let chunkSize := if 0 < dataSize then 36 + dataSize else 4294967295
  let finalDataSize := if 0 < dataSize then dataSize else 4294967295
  let byteRate := sampleRate * channels * bitsPerSample / 8
  let blockAlign := channels * bitsPerSample / 8
  if chunkSize < 4294967296 ∧ channels < 65536 ∧ sampleRate < 4294967296 ∧
      byteRate < 4294967296 ∧ blockAlign < 65536 ∧ bitsPerSample < 65536 ∧
      finalDataSize < 4294967296 then
    some (riffTag ++ u32le chunkSize ++ waveTag ++ fmtTag ++ u32le 16 ++ u16le 1 ++
      u16le channels ++ u32le sampleRate ++ u32le byteRate ++ u16le blockAlign ++
      u16le bitsPerSample ++ dataTag ++ u32le finalDataSize)
  else
    none

/-- The header bytes as actually yielded by the stream generators
(`create_wav_header(rate, 16, 1)`); total for the sample rates that
occur, `[]` only for a rate `struct.pack` would reject. -/
def wavHeaderBytes (sampleRate : Nat) : List Nat :=
  (createWavHeader sampleRate 16 1 0).getD []

/-! ## Dispatcher (`async_process_stream`)

The dispatcher probes the primary server with
`asyncio.wait_for(asyncio.open_connection(host, port), timeout=0.064)`;
on failure it probes the fallback if one is configured, else raises.
The outcome of each `open_connection` attempt is abstracted as a boolean
(success / any of `ConnectionRefusedError`, `asyncio.TimeoutError`,
`OSError`).  The chosen session generator is abstracted as a function
from the selected target to the audio chunks it yields. -/

/-- `CONNECTION_TIMEOUT = 0.064` seconds, in milliseconds. -/
def connectionTimeoutMs : Nat := 64

/-- `TIMEOUT_SECONDS = 10` (`const.py`), in milliseconds. -/
def synthesisTimeoutMs : Nat := 10000

/-- The constructor arguments of `StreamProcessor` that the dispatcher
reads.  Optional fields mirror the Python defaults (`None`). -/
structure ProcessorConfig where
  primarySupportsStreaming : Bool
  fallbackSupportsStreaming : Bool
  ttsHost : String
  ttsPort : Nat
  sampleRate : Nat
  fallbackTtsHost : Option String
  fallbackTtsPort : Option Nat
  fallbackVoice : Option String
  fallbackSampleRate : Option Nat

/-- Python truthiness of the fallback host/port:
`if not self.fallback_tts_host or not self.fallback_tts_port:` treats
`None`, the empty string and port `0` as absent. -/
def fallbackConfigured (cfg : ProcessorConfig) : Bool :=
  (match cfg.fallbackTtsHost with
   | none => false
   | some h => !(h = "")) &&
  (match cfg.fallbackTtsPort with
   | none => false
   | some p => !(p = 0))

/-- `self.fallback_sample_rate = fallback_sample_rate or DEFAULT_FALLBACK_SAMPLE_RATE`
(`DEFAULT_FALLBACK_SAMPLE_RATE = 22050`; `0` is falsy). -/
def effFallbackSampleRate (cfg : ProcessorConfig) : Nat :=
  match cfg.fallbackSampleRate with
  | none => 22050
  | some r => if r = 0 then 22050 else r

/-- The `target_server` dict built after a successful probe. -/
structure Target where
  host : String
  port : Nat
  sampleRate : Nat
  voice : Option String
  isPrimary : Bool
deriving DecidableEq, Repr

/-- The two `ConnectionRefusedError` failure modes raised by
`async_process_stream` before any byte is produced. -/
inductive DispatchError where
  | primaryUnavailableNoFallback
  | bothUnavailable
deriving DecidableEq, Repr

/-- The Python error message attached to each failure. -/
def DispatchError.message : DispatchError → String
  | .primaryUnavailableNoFallback =>
    "Primary TTS server is unavailable and no fallback is configured."
  | .bothUnavailable => "Both primary and fallback TTS servers are unavailable."

/-- One probe attempt: the host, port and timeout passed to
`asyncio.wait_for(asyncio.open_connection(...), ...)`. -/
structure ProbeAttempt where
  host : String
  port : Nat
  timeoutMs : Nat
deriving DecidableEq, Repr

/-- The sequence of probe attempts the dispatcher makes, in order, given
the outcome of each attempt. -/
def probeTrace (cfg : ProcessorConfig) (primaryOk : Bool) : List ProbeAttempt :=
  ⟨cfg.ttsHost, cfg.ttsPort, connectionTimeoutMs⟩ ::
    (if !primaryOk && fallbackConfigured cfg then
      [⟨(cfg.fallbackTtsHost.getD ""), (cfg.fallbackTtsPort.getD 0), connectionTimeoutMs⟩]
    else [])

/-- Target selection of `async_process_stream`: primary on a successful
primary probe, else the fallback (when configured and reachable), else
one of the two errors. -/
def selectTarget (cfg : ProcessorConfig) (voiceName : String)
    (primaryOk fallbackOk : Bool) : Except DispatchError Target :=
  if primaryOk then
    .ok ⟨cfg.ttsHost, cfg.ttsPort, cfg.sampleRate, some voiceName, true⟩
  else if !(fallbackConfigured cfg) then
    .error .primaryUnavailableNoFallback
  else if fallbackOk then
    .ok ⟨cfg.fallbackTtsHost.getD "", cfg.fallbackTtsPort.getD 0,
      effFallbackSampleRate cfg, cfg.fallbackVoice, false⟩
  else
    .error .bothUnavailable

/-- `should_use_native_stream` for the selected target. -/
def shouldUseNative (cfg : ProcessorConfig) (t : Target) : Bool :=
  (t.isPrimary && cfg.primarySupportsStreaming) ||
    (!t.isPrimary && cfg.fallbackSupportsStreaming)

/-- Output of `async_process_stream` as seen by its consumer: the
chunks yielded before the generator finished, and the error that ended
it, if any.  Both session generators first yield
`create_wav_header(target.sample_rate, 16, 1)` and then their audio;
their audio output is abstracted as a function of the target. -/
def processStream (cfg : ProcessorConfig) (voiceName : String)
    (primaryOk fallbackOk : Bool)
    (nativeAudio sentenceAudio : Target → List (List Nat)) :
    List (List Nat) × Option DispatchError :=
  match selectTarget cfg voiceName primaryOk fallbackOk with
  | .error e => ([], some e)
  | .ok t =>
    (wavHeaderBytes t.sampleRate ::
      (if shouldUseNative cfg t then nativeAudio t else sentenceAudio t), none)

/-- `async_stream_tts_audio` (`tts.py`): the wrapper generator first
yields its own `create_wav_header(22050, 16, 1, 0)` and only then
iterates the generator of the dispatcher. -/
def streamTtsAudioOutput (dispatcherOut : List (List Nat) × Option DispatchError) :
    List (List Nat) × Option DispatchError :=
  ((createWavHeader 22050 16 1 0).getD [] :: dispatcherOut.1, dispatcherOut.2)

/-! ## Engine events and session read loops

Events of the Wyoming wire protocol that the per-request path can
receive, and the result of one `async_read_event` call. -/

/-- Engine-to-proxy events distinguished by the session read loops. -/
inductive WyEvent where
  | audioChunk (bytes : List Nat)
  | audioStart
  | audioStop
  | synthesizeStopped
  | error (text code : String)
  | other (kind : String)
deriving DecidableEq, Repr

/-- Result of one read in native mode (`_read_audio` uses no read
timeout): an event, end of stream (`async_read_event` returned `None`),
or an I/O exception raised by the read. -/
inductive NativeRead where
  | ev (e : WyEvent)
  | eof
  | exn (msg : String)
deriving DecidableEq, Repr

/-- Result of one read in sentence mode, where every read is wrapped in
`asyncio.wait_for(..., timeout=TIMEOUT_SECONDS)`: additionally the
guarded read may time out. -/
inductive SentenceRead where
  | ev (e : WyEvent)
  | eof
  | timeout
  | exn (msg : String)
deriving DecidableEq, Repr

/-- Items the native reader task puts on `audio_queue`: audio bytes, a
captured exception, or the `None` sentinel from its `finally:` block. -/
inductive QueueItem where
  | audio (bytes : List Nat)
  | exn (msg : String)
  | stop
deriving DecidableEq, Repr

/-- `_read_audio`: loop reading events; stop at `None` or
`SynthesizeStopped`; enqueue the payload of every `AudioChunk`; any
other event (including `Error`) falls through and is ignored; a raised
exception is enqueued; the `finally:` block always enqueues `None`. -/
def readAudioQueue : List NativeRead → List QueueItem
  | [] => [.stop]
  | .eof :: _ => [.stop]
  | .exn m :: _ => [.exn m, .stop]
  | .ev e :: rest =>
    match e with
    | .synthesizeStopped => [.stop]
    | .audioChunk b => .audio b :: readAudioQueue rest
    | _ => readAudioQueue rest

/-- Terminal state of the native session as seen by its consumer. -/
inductive SessionOutcome where
  | completed
  | failed (msg : String)
deriving DecidableEq, Repr

/-- The consumer loop of `_stream_native_to_target`: drain the queue,
stop at the `None` sentinel, re-raise a queued exception. -/
def consumeQueue : List QueueItem → List (List Nat) × SessionOutcome
  | [] => ([], .completed)
  | .stop :: _ => ([], .completed)
  | .exn m :: _ => ([], .failed m)
  | .audio b :: rest =>
    let p := consumeQueue rest
    (b :: p.1, p.2)

/-- Audio chunks and outcome delivered by the native session for a given
read script. -/
def nativeSession (script : List NativeRead) : List (List Nat) × SessionOutcome :=
  consumeQueue (readAudioQueue script)

/-- The speakability test at the top of `_synthesize_sentence` (and of
`_synthesize_and_stream`): after stripping, the text must be non-empty
and contain a `\w` character, otherwise the unit is skipped silently. -/
def isSpeakable (text : List Char) : Bool :=
  let clean := pyStrip text
  !(clean = []) && clean.any isPyWord

/-- What `_synthesize_sentence` did for one unit: whether a `Synthesize`
request was written (speakable text), the audio chunks yielded, and
whether the unit ended because the per-read `wait_for` timed out. -/
structure UnitResult where
  written : Bool
  audio : List (List Nat)
  timedOut : Bool
deriving DecidableEq, Repr

/-- The read loop of `_synthesize_sentence`: each read is guarded by
`asyncio.wait_for(..., timeout=TIMEOUT_SECONDS)`.  A timeout breaks the
loop (soft end of this unit); `None` or `AudioStop` ends the unit
normally; `AudioChunk` payloads are yielded; every other event
(including `Error` and `SynthesizeStopped`) is ignored; any other
exception propagates.  An exhausted script means no further event ever
arrives, so the guarded read times out.  Returns the audio, the
timed-out flag, and the unconsumed script. -/
def sentenceReadLoop : List SentenceRead →
    Except String (List (List Nat) × Bool × List SentenceRead)
  | [] => .ok ([], true, [])
  | .timeout :: rest => .ok ([], true, rest)
  | .eof :: rest => .ok ([], false, rest)
  | .exn m :: _ => .error m
  | .ev e :: rest =>
    match e with
    | .audioStop => .ok ([], false, rest)
    | .audioChunk b => do
      let (a, t, s) ← sentenceReadLoop rest
      .ok (b :: a, t, s)
    | _ => sentenceReadLoop rest

/-- `_synthesize_sentence` for one unit over a shared connection:
non-speakable units return immediately without touching the connection;
otherwise one `Synthesize` event is written and the read loop runs. -/
def synthesizeSentence (text : List Char) (script : List SentenceRead) :
    Except String (UnitResult × List SentenceRead) :=
  if isSpeakable text then do
    let (a, t, s) ← sentenceReadLoop script
    .ok (⟨true, a, t⟩, s)
  else
    .ok (⟨false, [], false⟩, script)

/-- Sequential processing of a list of units over one connection, as
`_stream_by_sentence_to_target` does: the `_synthesize_sentence` of each unit
consumes a prefix of the shared read script; a propagated exception
aborts the whole run. -/
def runUnits : List (List Char) → List SentenceRead → Except String (List UnitResult)
  | [], _ => .ok []
  | u :: us, s => do
    let (r, s') ← synthesizeSentence u s
    let rs ← runUnits us s'
    .ok (r :: rs)

/-- Reads that end the native read loop. -/
def nativeStops : NativeRead → Bool
  | .eof => true
  | .exn _ => true
  | .ev .synthesizeStopped => true
  | _ => false

/-- Payload carried into the output by a native read, if any. -/
def nativePayload : NativeRead → Option (List Nat)
  | .ev (.audioChunk b) => some b
  | _ => none

/-- Reads that end the sentence-mode read loop. -/
def sentenceStops : SentenceRead → Bool
  | .eof => true
  | .timeout => true
  | .ev .audioStop => true
  | _ => false

/-- Payload carried into the output by a sentence-mode read, if any. -/
def sentencePayload : SentenceRead → Option (List Nat)
  | .ev (.audioChunk b) => some b
  | _ => none

/-- Reads that raise an exception not handled by the sentence loop. -/
def isExnRead : SentenceRead → Bool
  | .exn _ => true
  | _ => false

/-! ## Helper notions and lemmas -/

/-- A text with neither leading nor trailing whitespace (vacuously true
of the empty text). -/
def noEdgeWS (l : List Char) : Prop :=
  (∀ c, l.head? = some c → isPySpace c = false) ∧
    (∀ c, l.getLast? = some c → isPySpace c = false)

/-- `_form_sentence` takes its hard-cut branch: no terminator in the
masked text, length over the ceiling, and no space at a positive index
inside the search window. -/
def hardCutPath (b : List Char) : Prop :=
  (maskDecimals b).findIdx? isTerminator = none ∧
    maxChars < (maskDecimals b).length ∧
    rfindSpace ((maskDecimals b).take (maxChars + 20)) ≤ 0

instance (b : List Char) : Decidable (hardCutPath b) := by
  unfold hardCutPath
  infer_instance

/-- The last two characters of a text, in order, when it has two. -/
def lastTwo (l : List Char) : Option (Char × Char) :=
  match l.reverse with
  | a :: b :: _ => some (b, a)
  | _ => none

/-- `_form_sentence` split the buffer at a period lying between two
digits: the returned unit ends with `digit '.'` and the remainder starts
with a digit. -/
def splitsAtDecimal (b : List Char) : Bool :=
  match lastTwo (formSentence b).1, (formSentence b).2.head? with
  | some (d, q), some d2 => isPyDigit d && q = '.' && isPyDigit d2
  | _, _ => false

/-- Value of a 4-byte little-endian field. -/
def le32 (bs : List Nat) : Nat :=
  match bs with
  | [a, b, c, d] => a + 256 * b + 65536 * c + 16777216 * d
  | _ => 0

/-- A chunk of the output stream that starts with the `RIFF` container
magic, i.e. a container header. -/
def isRiffHeader (b : List Nat) : Bool :=
  b.take 4 = riffTag

/-- The sample-rate field of a WAV header (bytes 24..27, little-endian). -/
def headerSampleRate (b : List Nat) : Nat :=
  le32 ((b.drop 24).take 4)

theorem head?_dropWhile_not (p : Char → Bool) :
    ∀ (l : List Char) (c : Char), (l.dropWhile p).head? = some c → p c = false := by
  intro l
  induction l with
  | nil => intro c h; simp [List.dropWhile] at h
  | cons a t ih =>
    intro c h
    rw [List.dropWhile_cons] at h
    by_cases hp : p a = true
    · exact ih c (by simpa [hp] using h)
    · simp only [hp, if_false] at h
      simp only [List.head?] at h
      cases h
      simpa using hp

theorem getLast?_dropWhile_eq (p : Char → Bool) :
    ∀ (l : List Char) (c : Char), (l.dropWhile p).getLast? = some c →
      l.getLast? = some c := by
  intro l
  induction l with
  | nil => intro c h; simp [List.dropWhile] at h
  | cons a t ih =>
    intro c h
    rw [List.dropWhile_cons] at h
    by_cases hp : p a = true
    · simp only [hp, if_true] at h
      rw [List.getLast?_cons, ih c h]
      rfl
    · simpa [hp] using h

/-- `str.strip()` leaves no leading or trailing whitespace. -/
theorem noEdgeWS_pyStrip (l : List Char) : noEdgeWS (pyStrip l) := by
  unfold pyStrip noEdgeWS
  constructor
  · intro c h
    rw [List.head?_reverse] at h
    have h2 := getLast?_dropWhile_eq isPySpace (l.dropWhile isPySpace).reverse c h
    rw [List.getLast?_reverse] at h2
    exact head?_dropWhile_not isPySpace l c h2
  · intro c h
    rw [List.getLast?_reverse] at h
    exact head?_dropWhile_not isPySpace (l.dropWhile isPySpace).reverse c h

/-- When the head character is not `#`, the replacement scan just keeps
it and continues on the tail. -/
theorem unmaskDecimals_cons_of_ne (c : Char) (rest : List Char) (h : c ≠ '#') :
    unmaskDecimals (c :: rest) = c :: unmaskDecimals rest := by
  rw [unmaskDecimals.eq_def]
  split
  · next heq =>
    injection heq with h1 _
    exact absurd h1 h
  · next heq => simp at heq
  · next heq =>
    injection heq with h1 h2
    rw [h1, h2]

/-- `str.replace("##DEC##", ".")` is the identity on text without `#`. -/
theorem unmaskDecimals_eq_self : ∀ l : List Char, '#' ∉ l → unmaskDecimals l = l := by
  intro l
  induction l with
  | nil => intro; rfl
  | cons c rest ih =>
    intro h
    have hc : c ≠ '#' := by
      intro he; exact h (by simp [he])
    rw [unmaskDecimals_cons_of_ne c rest hc]
    rw [ih (fun hm => h (List.mem_cons_of_mem c hm))]

/-- The inner drain loop only ever emits non-empty units (the Python
loop emits `sentence` only under `if sentence:`). -/
theorem drainUnits_ne_nil :
    ∀ (fuel : Nat) (cur : List Char) (us : List (List Char)) (rest : List Char),
      drainUnits fuel cur = some (us, rest) → ∀ u ∈ us, u ≠ [] := by
  intro fuel
  induction fuel with
  | zero => intro cur us rest h; simp [drainUnits] at h
  | succ n ih =>
    intro cur us rest h u hu
    rw [drainUnits] at h
    by_cases hc : cur = []
    · rw [if_pos hc] at h
      cases h
      simp at hu
    · rw [if_neg hc] at h
      by_cases he : (formSentence cur).1 = []
      · simp only [he, if_pos rfl] at h
        cases h
        simp at hu
      · simp only [if_neg he] at h
        cases hd : drainUnits n (formSentence cur).2 with
        | none =>
          rw [hd] at h
          simp [Option.bind] at h
        | some p =>
          rw [hd] at h
          simp only [Option.bind_eq_bind, Option.some_bind] at h
          cases h
          rcases List.mem_cons.mp hu with h1 | h2
          · rw [h1]; exact he
          · exact ih (formSentence cur).2 p.1 p.2 (by rw [hd]) u h2

/-- Every unit the sentence-based driver emits (drained units and the
final flushed remainder) is non-empty. -/
theorem streamUnits_ne_nil :
    ∀ (frags : List (List Char)) (buf : List Char) (us : List (List Char)),
      streamUnits frags buf = some us → ∀ u ∈ us, u ≠ [] := by
  intro frags
  induction frags with
  | nil =>
    intro buf us h u hu
    simp only [streamUnits] at h
    by_cases he : pyStrip buf = []
    · rw [if_pos he] at h
      cases h
      simp at hu
    · rw [if_neg he] at h
      cases h
      rcases List.mem_singleton.mp hu with h1
      rw [h1]; exact he
  | cons f fs ih =>
    intro buf us h u hu
    simp only [streamUnits, feedFragment] at h
    cases hd : drainUnits ((buf ++ f).length + 1) (buf ++ f) with
    | none =>
      rw [hd] at h
      simp [Option.bind] at h
    | some p =>
      rw [hd] at h
      simp only [Option.bind_eq_bind, Option.some_bind] at h
      cases ht : streamUnits fs p.2 with
      | none =>
        rw [ht] at h
        simp [Option.bind] at h
      | some tail =>
        rw [ht] at h
        simp only [Option.some_bind] at h
        cases h
        rcases List.mem_append.mp hu with h1 | h2
        · exact drainUnits_ne_nil _ _ _ _ hd u h1
        · exact ih p.2 tail ht u h2

/-- On a read script that raises no I/O exception, the sentence-mode
read loop returns normally; its audio is exactly the `AudioChunk`
payloads, in order, of the reads preceding the first loop-ending read
(timeout, end of stream, or `AudioStop`); the unconsumed script again
raises no exception. -/
theorem sentenceReadLoop_no_exn :
    ∀ s : List SentenceRead, (∀ r ∈ s, isExnRead r = false) →
      ∃ t s', sentenceReadLoop s =
          .ok ((s.takeWhile (fun r => !sentenceStops r)).filterMap sentencePayload, t, s') ∧
        (∀ r ∈ s', isExnRead r = false) := by
  intro s
  induction s with
  | nil =>
    intro _
    exact ⟨true, [], by simp [sentenceReadLoop], by simp⟩
  | cons r rest ih =>
    intro h
    have hrest : ∀ x ∈ rest, isExnRead x = false :=
      fun x hx => h x (List.mem_cons_of_mem r hx)
    cases r with
    | timeout =>
      exact ⟨true, rest, by simp [sentenceReadLoop, sentenceStops], hrest⟩
    | eof =>
      exact ⟨false, rest, by simp [sentenceReadLoop, sentenceStops], hrest⟩
    | exn m =>
      have := h (.exn m) (List.mem_cons_self _ _)
      simp [isExnRead] at this
    | ev e =>
      obtain ⟨t, s', hok, hs'⟩ := ih hrest
      cases e with
      | audioStop =>
        exact ⟨false, rest, by simp [sentenceReadLoop, sentenceStops], hrest⟩
      | audioChunk b =>
        refine ⟨t, s', ?_, hs'⟩
        simp only [sentenceReadLoop, hok, List.takeWhile_cons, sentenceStops,
          Bool.not_false, if_true, List.filterMap_cons, sentencePayload]
        rfl
      | audioStart =>
        refine ⟨t, s', ?_, hs'⟩
        simp only [sentenceReadLoop, hok, List.takeWhile_cons, sentenceStops,
          Bool.not_false, if_true, List.filterMap_cons, sentencePayload]
      | synthesizeStopped =>
        refine ⟨t, s', ?_, hs'⟩
        simp only [sentenceReadLoop, hok, List.takeWhile_cons, sentenceStops,
          Bool.not_false, if_true, List.filterMap_cons, sentencePayload]
      | error tx c =>
        refine ⟨t, s', ?_, hs'⟩
        simp only [sentenceReadLoop, hok, List.takeWhile_cons, sentenceStops,
          Bool.not_false, if_true, List.filterMap_cons, sentencePayload]
      | other k =>
        refine ⟨t, s', ?_, hs'⟩
        simp only [sentenceReadLoop, hok, List.takeWhile_cons, sentenceStops,
          Bool.not_false, if_true, List.filterMap_cons, sentencePayload]

/-- On an exception-free read script, every unit in the list is
processed: the run returns normally, one result per unit, and a
`Synthesize` request is written for exactly the speakable units —
regardless of any per-unit timeouts in the script. -/
theorem runUnits_no_exn :
    ∀ (us : List (List Char)) (s : List SentenceRead),
      (∀ r ∈ s, isExnRead r = false) →
      ∃ rs, runUnits us s = .ok rs ∧
        rs.map UnitResult.written = us.map isSpeakable := by
  intro us
  induction us with
  | nil => intro s _; exact ⟨[], rfl, rfl⟩
  | cons u us ih =>
    intro s h
    by_cases hsp : isSpeakable u = true
    · obtain ⟨t, s', hok, hs'⟩ := sentenceReadLoop_no_exn s h
      obtain ⟨rs, hrs, hmap⟩ := ih s' hs'
      refine ⟨⟨true, (s.takeWhile (fun r => !sentenceStops r)).filterMap sentencePayload, t⟩ :: rs,
        ?_, ?_⟩
      · simp only [runUnits, synthesizeSentence, if_pos hsp, hok, bind, Except.bind, hrs]
      · simp [hmap, hsp]
    · have hf : isSpeakable u = false := by
        cases hb : isSpeakable u
        · rfl
        · exact absurd hb hsp
      obtain ⟨rs, hrs, hmap⟩ := ih s h
      refine ⟨⟨false, [], false⟩ :: rs, ?_, ?_⟩
      · simp only [runUnits, synthesizeSentence, if_neg hsp, bind, Except.bind, hrs]
      · simp only [List.map_cons, hmap, hf]

/-- The audio delivered by the native session is exactly the
`AudioChunk` payloads, in order, of the events preceding the first
loop-ending read (end of stream, exception, or `SynthesizeStopped`). -/
theorem nativeSession_audio :
    ∀ s : List NativeRead,
      (nativeSession s).1 = (s.takeWhile (fun r => !nativeStops r)).filterMap nativePayload := by
  intro s
  induction s with
  | nil => simp [nativeSession, readAudioQueue, consumeQueue]
  | cons r rest ih =>
    cases r with
    | eof => simp [nativeSession, readAudioQueue, consumeQueue, nativeStops]
    | exn m => simp [nativeSession, readAudioQueue, consumeQueue, nativeStops]
    | ev e =>
      cases e with
      | synthesizeStopped =>
        simp [nativeSession, readAudioQueue, consumeQueue, nativeStops]
      | audioChunk b =>
        simp only [nativeSession] at ih ⊢
        rw [List.takeWhile_cons]
        rw [show nativeStops (.ev (.audioChunk b)) = false from rfl]
        simp only [Bool.not_false, if_true, List.filterMap_cons]
        rw [show nativePayload (.ev (.audioChunk b)) = some b from rfl]
        show b :: (consumeQueue (readAudioQueue rest)).1 = _
        rw [ih]
      | audioStart =>
        simp only [nativeSession] at ih ⊢
        rw [List.takeWhile_cons]
        rw [show nativeStops (.ev .audioStart) = false from rfl]
        simp only [Bool.not_false, if_true, List.filterMap_cons]
        rw [show nativePayload (.ev .audioStart) = none from rfl]
        exact ih
      | audioStop =>
        simp only [nativeSession] at ih ⊢
        rw [List.takeWhile_cons]
        rw [show nativeStops (.ev .audioStop) = false from rfl]
        simp only [Bool.not_false, if_true, List.filterMap_cons]
        rw [show nativePayload (.ev .audioStop) = none from rfl]
        exact ih
      | error tx c =>
        simp only [nativeSession] at ih ⊢
        rw [List.takeWhile_cons]
        rw [show nativeStops (.ev (.error tx c)) = false from rfl]
        simp only [Bool.not_false, if_true, List.filterMap_cons]
        rw [show nativePayload (.ev (.error tx c)) = none from rfl]
        exact ih
      | other k =>
        simp only [nativeSession] at ih ⊢
        rw [List.takeWhile_cons]
        rw [show nativeStops (.ev (.other k)) = false from rfl]
        simp only [Bool.not_false, if_true, List.filterMap_cons]
        rw [show nativePayload (.ev (.other k)) = none from rfl]
        exact ih

/-! ## Claim theorems -/

/-- Claim C1: for every request, the dispatcher probes the primary
target first, with the short connection timeout (64 ms, well below the
10 s synthesis read timeout); if the primary probe fails and no
fallback is configured the request fails with the no-server-available
error, and if both probes fail it fails with the both-servers-
unavailable error; in either failure case the output contains no chunk
at all — in particular no container header. -/
theorem C1_probe_failover (cfg : ProcessorConfig) (voice : String)
    (primaryOk fallbackOk : Bool) (na sa : Target → List (List Nat)) :
    (probeTrace cfg primaryOk).head? =
      some ⟨cfg.ttsHost, cfg.ttsPort, connectionTimeoutMs⟩ ∧
    connectionTimeoutMs < synthesisTimeoutMs ∧
    (primaryOk = false → fallbackConfigured cfg = false →
      processStream cfg voice primaryOk fallbackOk na sa =
        ([], some .primaryUnavailableNoFallback)) ∧
    (primaryOk = false → fallbackConfigured cfg = true → fallbackOk = false →
      processStream cfg voice primaryOk fallbackOk na sa =
        ([], some .bothUnavailable)) := by
  refine ⟨rfl, by decide, ?_, ?_⟩
  · intro hp hc
    simp [processStream, selectTarget, hp, hc]
  · intro hp hc hf
    simp [processStream, selectTarget, hp, hc, hf]

/-- Witness for C1: a concrete configuration with a fallback where both
probes fail surfaces the both-servers-unavailable error with no output
chunks. -/
theorem C1_probe_failover_witness :
    processStream ⟨false, false, "p.local", 10200, 22050, some "f.local", some 10201,
        none, none⟩ "v" false false (fun _ => [[1]]) (fun _ => [[1]]) =
      ([], some .bothUnavailable) :=
  (C1_probe_failover ⟨false, false, "p.local", 10200, 22050, some "f.local", some 10201,
    none, none⟩ "v" false false (fun _ => [[1]]) (fun _ => [[1]])).2.2.2 rfl (by decide) rfl

/-- Claim C2 fails on the code: on a successful request the stream the
caller receives from `async_stream_tts_audio` contains TWO container
headers — the wrapper in `tts.py` yields a hard-coded 22050 Hz header
before iterating the dispatcher generator, which yields its own header
at the connected target sample rate.  Evaluated here for a fallback
dispatch at 24000 Hz: the delivered stream has two RIFF headers, the
first declaring 22050, the second 24000, followed by the audio. -/
theorem C2_double_header :
    (streamTtsAudioOutput (processStream
        ⟨false, false, "p.local", 10200, 22050, some "f.local", some 10201,
          some "fb", some 24000⟩ "v" false true
        (fun _ => [[1, 2, 3]]) (fun _ => [[1, 2, 3]]))).1.countP isRiffHeader = 2 ∧
    ((streamTtsAudioOutput (processStream
        ⟨false, false, "p.local", 10200, 22050, some "f.local", some 10201,
          some "fb", some 24000⟩ "v" false true
        (fun _ => [[1, 2, 3]]) (fun _ => [[1, 2, 3]]))).1.map headerSampleRate)[0]? =
      some 22050 ∧
    ((streamTtsAudioOutput (processStream
        ⟨false, false, "p.local", 10200, 22050, some "f.local", some 10201,
          some "fb", some 24000⟩ "v" false true
        (fun _ => [[1, 2, 3]]) (fun _ => [[1, 2, 3]]))).1.map headerSampleRate)[1]? =
      some 24000 ∧
    effFallbackSampleRate ⟨false, false, "p.local", 10200, 22050, some "f.local",
      some 10201, some "fb", some 24000⟩ = 24000 := by
  refine ⟨by decide, by decide, by decide, by decide⟩

/-- Claim C3 fails on the code: a text fragment containing the literal
marker text `##DEC##` is rewritten to a period by the unmasking pass, so
the concatenation of the emitted units does not reconstruct the input —
non-whitespace characters are replaced. -/
theorem C3_placeholder_corruption :
    streamBySentenceUnits ["a##DEC##b.".toList] = some ["a.b.".toList] ∧
    ("a##DEC##b.".toList.filter (fun c => !isPySpace c) ≠
      (List.flatten ["a.b.".toList]).filter (fun c => !isPySpace c)) := by
  refine ⟨by decide, by decide⟩

/-- Claim C5 fails on the code: neither read loop handles an `Error`
event.  In native mode an `Error` followed by connection close yields a
normally-completed session with no audio and no surfaced failure; in
sentence mode the `Error` is skipped and the unit ends through the soft
per-read timeout, again with no surfaced protocol failure. -/
theorem C5_error_event_ignored :
    nativeSession [.ev (.error "Synthesis failed" "internal"), .eof] =
      ([], .completed) ∧
    runUnits ["Hello.".toList]
        [.ev (.error "Synthesis failed" "internal"), .timeout] =
      .ok [⟨true, [], true⟩] := by
  refine ⟨by decide, by rfl⟩

/-- Claim C6: on an exception-free read script, the sentence-based
session processes every unit: the run returns one result per unit and
writes a `Synthesize` request for exactly the speakable units — a
per-unit read timeout (a `.timeout` entry in the script, or a script
that runs dry) never aborts the run or skips later units. -/
theorem C6_timeout_soft_recovery (us : List (List Char)) (s : List SentenceRead)
    (h : ∀ r ∈ s, isExnRead r = false) :
    ∃ rs, runUnits us s = .ok rs ∧ rs.length = us.length ∧
      rs.map UnitResult.written = us.map isSpeakable := by
  obtain ⟨rs, hok, hmap⟩ := runUnits_no_exn us s h
  refine ⟨rs, hok, ?_, hmap⟩
  have := congrArg List.length hmap
  simpa using this

/-- Witness for C6: two units against a script whose first read times
out; the run still returns a result for both units, the second with its
audio intact. -/
theorem C6_timeout_soft_recovery_witness :
    ∃ rs, runUnits ["Hi.".toList, "Yo.".toList]
        [.timeout, .ev (.audioChunk [7]), .ev .audioStop] = .ok rs ∧
      rs.length = ["Hi.".toList, "Yo.".toList].length ∧
      rs.map UnitResult.written =
        ["Hi.".toList, "Yo.".toList].map isSpeakable :=
  C6_timeout_soft_recovery ["Hi.".toList, "Yo.".toList]
    [.timeout, .ev (.audioChunk [7]), .ev .audioStop] (by decide)

/-- Claim C10: in both session modes the only engine events whose
content reaches the output are `AudioChunk` events, forwarded unmodified
and in arrival order, restricted to the reads before the first
loop-ending read; all other events contribute nothing. -/
theorem C10_audio_chunks_only :
    (∀ s : List NativeRead,
      (nativeSession s).1 =
        (s.takeWhile (fun r => !nativeStops r)).filterMap nativePayload) ∧
    (∀ s : List SentenceRead, (∀ r ∈ s, isExnRead r = false) →
      ∃ t s', sentenceReadLoop s =
        .ok ((s.takeWhile (fun r => !sentenceStops r)).filterMap sentencePayload, t, s')) := by
  refine ⟨nativeSession_audio, ?_⟩
  intro s h
  obtain ⟨t, s', hok, _⟩ := sentenceReadLoop_no_exn s h
  exact ⟨t, s', hok⟩

/-- Witness for C10: a concrete script with an `AudioStart`, two audio
chunks and an `Error` event in both modes; only the chunk payloads come
through, in order. -/
theorem C10_audio_chunks_only_witness :
    (nativeSession [.ev .audioStart, .ev (.audioChunk [1]), .ev (.error "e" "c"),
        .ev (.audioChunk [2]), .ev .synthesizeStopped, .ev (.audioChunk [3])]).1 =
      ([.ev .audioStart, .ev (.audioChunk [1]), .ev (.error "e" "c"),
        .ev (.audioChunk [2]), .ev .synthesizeStopped,
        .ev (.audioChunk [3])].takeWhile
          (fun r => !nativeStops r)).filterMap nativePayload ∧
    (∃ t s', sentenceReadLoop [.ev .audioStart, .ev (.audioChunk [4]), .ev .audioStop] =
      .ok (([.ev .audioStart, .ev (.audioChunk [4]),
        .ev .audioStop].takeWhile (fun r => !sentenceStops r)).filterMap sentencePayload,
        t, s')) :=
  ⟨C10_audio_chunks_only.1 _, C10_audio_chunks_only.2 _ (by decide)⟩

/-- Claim C9: for every sample rate, bit depth and channel count within
the ranges `struct.pack` accepts, the streaming-mode header
(`data_size = 0`) is a 44-byte header whose two 32-bit size fields — the
RIFF chunk size at offset 4 and the data-chunk size at offset 40 — are
both the sentinel `0xFFFFFFFF`; and the builder is a pure function:
equal inputs give identical bytes. -/
theorem C9_streaming_header (r b c : Nat) (hr : r < 4294967296)
    (hc : c < 65536) (hb : b < 65536) (hbr : r * c * b / 8 < 4294967296)
    (hba : c * b / 8 < 65536) :
    ∃ h, createWavHeader r b c 0 = some h ∧ h.length = 44 ∧
      (h.drop 4).take 4 = [255, 255, 255, 255] ∧
      (h.drop 40).take 4 = [255, 255, 255, 255] ∧
      ∀ r2 b2 c2, r2 = r → b2 = b → c2 = c →
        createWavHeader r2 b2 c2 0 = createWavHeader r b c 0 := by
  have hopen : createWavHeader r b c 0 =
      some (riffTag ++ u32le 4294967295 ++ waveTag ++ fmtTag ++ u32le 16 ++ u16le 1 ++
        u16le c ++ u32le r ++ u32le (r * c * b / 8) ++ u16le (c * b / 8) ++
        u16le b ++ dataTag ++ u32le 4294967295) := by
    simp only [createWavHeader]
    rw [if_pos]
    · norm_num
    · exact ⟨by norm_num, hc, hr, hbr, hba, hb, by norm_num⟩
  refine ⟨_, hopen, ?_, ?_, ?_, ?_⟩
  · simp [u32le, u16le, riffTag, waveTag, fmtTag, dataTag]
  · rfl
  · rfl
  · intro r2 b2 c2 h1 h2 h3
    rw [h1, h2, h3]

/-- Witness for C9 at the configuration the proxy actually uses
(22050 Hz, 16-bit, mono). -/
theorem C9_streaming_header_witness :
    ∃ h, createWavHeader 22050 16 1 0 = some h ∧ h.length = 44 ∧
      (h.drop 4).take 4 = [255, 255, 255, 255] ∧
      (h.drop 40).take 4 = [255, 255, 255, 255] ∧
      ∀ r2 b2 c2, r2 = 22050 → b2 = 16 → c2 = 1 →
        createWavHeader r2 b2 c2 0 = createWavHeader 22050 16 1 0 :=
  C9_streaming_header 22050 16 1 (by decide) (by decide) (by decide)
    (by decide) (by decide)

/-- Claim C4 fails on the code in two ways.  A chained decimal splits:
the masking pass is a single non-overlapping scan, so in `0.1.2` only
`0.1` is protected and the unit splits exactly at the period between the
digits `1` and `2`.  And a unit produced by the hard-cut path is not
stripped: a buffer of a space followed by 260 letters yields a unit that
begins with whitespace. -/
theorem C4_invariant_counterexample :
    splitsAtDecimal ("0.1.2".toList) = true ∧
    formSentence ("0.1.2".toList) = ("0.1.".toList, "2".toList) ∧
    (formSentence (' ' :: List.replicate 260 'a')).1.head? = some ' ' ∧
    isPySpace ' ' = true := by
  refine ⟨by decide, by decide, ?_, by decide⟩
  decide

/-- Claim C4 as amended: the decimal example `3.14 is pi.` is kept whole
as the claim states; both components of `_form_sentence` are free of
leading and trailing whitespace on every path except the no-space
hard cut, whose raw slices may carry whitespace; the flushed remainder
is stripped by construction; and the driver never emits an empty unit. -/
theorem C4_invariant_amended :
    formSentence ("3.14 is pi.".toList) = ("3.14 is pi.".toList, []) ∧
    (∀ b : List Char, ¬ hardCutPath b → noEdgeWS (formSentence b).1) ∧
    (∀ l : List Char, noEdgeWS (pyStrip l)) ∧
    (∀ frags us, streamBySentenceUnits frags = some us → ∀ u ∈ us, u ≠ []) := by
  refine ⟨by decide, ?_, noEdgeWS_pyStrip, ?_⟩
  · intro b hn
    have hvac : noEdgeWS ([] : List Char) := by
      constructor <;> intro c h <;> simp at h
    by_cases hb : b = []
    · subst hb
      simpa [formSentence] using hvac
    · simp only [formSentence]
      rw [if_neg hb]
      split
      · exact noEdgeWS_pyStrip _
      · next hf =>
        split
        · next hl =>
          split
          · exact noEdgeWS_pyStrip _
          · next hs => exact absurd ⟨hf, hl, by omega⟩ hn
        · exact hvac
  · intro frags us h
    exact streamUnits_ne_nil frags [] us h

/-- Witness for C4 as amended: a buffer ending mid-word below the
ceiling takes no hard cut, and both components are edge-whitespace
free. -/
theorem C4_invariant_amended_witness :
    noEdgeWS (formSentence ("  He said. Wai".toList)).1 :=
  C4_invariant_amended.2.1 ("  He said. Wai".toList) (by decide)

/-- Claim C7 fails on the code in its general part: the space search
runs over the first `250 + 20 = 270` characters, not only up to the
ceiling.  A buffer of 280 non-terminated characters whose only space is
at index 265 is split there — the unit is 265 characters long, above the
250 ceiling, even though the buffer has no whitespace before the
ceiling, where the claim requires a hard cut at exactly 250. -/
theorem C7_split_window_counterexample :
    formSentence (List.replicate 265 'a' ++ ' ' :: List.replicate 14 'a') =
      (List.replicate 265 'a', List.replicate 14 'a') ∧
    (List.replicate 265 'a').length = 265 ∧
    (∀ c ∈ (List.replicate 265 'a' ++ ' ' :: List.replicate 14 'a').take 250,
      isPySpace c = false) := by
  refine ⟨by decide, by simp, by decide⟩

/-- Claim C7 as amended: both concrete 260-character examples hold as
stated; in general, for a terminator-free buffer over the 250 ceiling
the split point is the last space within the first 270 characters
(ceiling plus a 20-character grace window) provided its index is
positive, and the hard cut at exactly 250 happens only when no space
occurs at a positive index in that window. -/
theorem C7_split_window_amended :
    formSentence (List.replicate 210 'a' ++ ' ' :: List.replicate 49 'b') =
      (List.replicate 210 'a', List.replicate 49 'b') ∧
    formSentence (List.replicate 260 'a') =
      (List.replicate 250 'a', List.replicate 10 'a') ∧
    (∀ (b : List Char) (j : Int), maskDecimals b = b → '#' ∉ b →
      b.findIdx? isTerminator = none → 250 < b.length →
      rfindSpace (b.take 270) = j →
      ((0 < j →
        formSentence b = (pyStrip (b.take j.toNat), pyStrip (b.drop j.toNat))) ∧
       (j ≤ 0 → formSentence b = (b.take 250, b.drop 250)))) := by
  refine ⟨?_, ?_, ?_⟩
  · decide
  · decide
  · intro b j h1 h2 h3 h4 h5
    have hb : b ≠ [] := by
      intro he
      rw [he] at h4
      simp at h4
    have htake : ∀ n, '#' ∉ b.take n := fun n hm => h2 (List.take_subset n b hm)
    have hdrop : ∀ n, '#' ∉ b.drop n := fun n hm => h2 (List.drop_subset n b hm)
    constructor
    · intro hj
      simp only [formSentence, h1, h3]
      rw [if_neg hb]
      rw [if_pos (show maxChars < b.length from h4)]
      rw [show maxChars + 20 = 270 from rfl, h5]
      rw [if_pos hj]
      rw [unmaskDecimals_eq_self _ (htake j.toNat), unmaskDecimals_eq_self _ (hdrop j.toNat)]
    · intro hj
      simp only [formSentence, h1, h3]
      rw [if_neg hb]
      rw [if_pos (show maxChars < b.length from h4)]
      rw [show maxChars + 20 = 270 from rfl, h5]
      rw [if_neg (show ¬ (0 : Int) < j by omega)]
      rw [unmaskDecimals_eq_self _ (htake maxChars), unmaskDecimals_eq_self _ (hdrop maxChars)]
      rfl

/-- Witness for C7 as amended: the 280-character buffer with its only
space at index 265 splits exactly at that space. -/
theorem C7_split_window_amended_witness :
    formSentence (List.replicate 265 'a' ++ ' ' :: List.replicate 14 'a') =
      (pyStrip ((List.replicate 265 'a' ++ ' ' :: List.replicate 14 'a').take
        (Int.toNat 265)),
       pyStrip ((List.replicate 265 'a' ++ ' ' :: List.replicate 14 'a').drop
        (Int.toNat 265))) :=
  (C7_split_window_amended.2.2 (List.replicate 265 'a' ++ ' ' :: List.replicate 14 'a')
    265
    (by decide)
    (by decide)
    (by decide)
    (by decide)
    (by decide)).1 (by decide)

end TtsProxy
